import Mathlib

/-!
Verification of the natural-language specification of `pyannotate`
(rappdw/pyannotate) against a shallow embedding of its source.

The embedding covers:
* `pyannotate_tools/fixes/fix_annotate.py` — the lib2to3 fixer class
  `FixAnnotate`: the PATTERN match of candidate `funcdef` nodes, the
  annotation computation (`make_annotation`, embedded as `mkAnnot`),
  the inline PEP-484 insertion (`insert_python_3_annotation`, embedded
  as `insertPy3Annot`, with `get_parm_list`), the comment-style
  insertion (`insert_python_2_annotation`, embedded as
  `insertPy2Annot`), decorator extraction (`get_decorators`), the
  method heuristic (`is_method`, embedded as `is_method_tys`) and the
  return-expression search (`has_return_exprs`).
* `pyannotate_tools/annotations/main.py` — `revert_annotations`.

lib2to3 parse trees are modelled by the inductive `PyTree`: a Leaf
carries a token type, a value string and a whitespace/comment prefix
string (called `pfx` here, since that identifier reads better in
Lean); a Node carries a symbol type and a list of children.  lib2to3's
parser collapses any interior node with a single child into that
child; the concrete trees written below follow that convention.
Python string methods used by the fixer (`str.lstrip`,
`str.startswith`, `str.join`, the `\d+[lL]?$` regex) are modelled
directly on character lists so that every definition evaluates inside
the kernel.  Parent links of lib2to3 nodes are replaced by explicitly
passed context: the node's parent (consumed by `get_decorators`) and
the list of ancestor node types, innermost first (consumed by
`is_method_tys`).  In-place mutation of leaves is modelled by
rebuilding the tree with the mutated leaf at the same position.

Not modelled (no claim depends on them): `touch_import` /
`patch_imports` (a file-level edit outside the function node), the
MAXFIXES edit budget (modelled in its default, unset, state), and the
column-dependent prefix surgery of `insert_long_form`
(`insertPy2Annot` reports which layout it chose and the comment text
it inserts, which is what the width-policy claim is about).
-/

namespace PyAnn

/-- Token types of lib2to3 leaves (module `lib2to3.pgen2.token`). -/
inductive TokTy where
  | LPAR | RPAR | NAME | COMMA | COLON | EQUAL | NUMBER | STRING
  | STAR | DSTAR | INDENT | NEWLINE | DEDENT | AT | ARROW | OP
deriving DecidableEq, Repr

/-- Symbol types of lib2to3 interior nodes (`lib2to3.pygram` / `syms`);
`other` stands for any symbol the embedded code never inspects. -/
inductive NodeTy where
  | funcdef | classdef | parameters | typedargslist | tname | suite
  | simple_stmt | return_stmt | yield_expr | decorated | decorator
  | decorators | dotted_name | arglist | file_input | other
deriving DecidableEq, Repr

/-- A lib2to3 parse tree: `leaf ty value pfx` models
`Leaf(type, value, prefix)`; `node ty children` models
`Node(type, children)`. -/
inductive PyTree where
  | leaf (ty : TokTy) (value : String) (pre : String)
  | node (ty : NodeTy) (children : List PyTree)
deriving Repr

/-- Children of a tree: empty for a Leaf, the child list for a Node. -/
def childrenOf : PyTree → List PyTree
  | .leaf _ _ _ => []
  | .node _ cs => cs

/-- The value of a leaf; `none` for interior nodes (a lib2to3 leaf
pattern such as the literal `':'` in PATTERN matches only leaves). -/
def leafVal : PyTree → Option String
  | .leaf _ v _ => some v
  | .node _ _ => none

/-- Value of `t` at places where the source has already asserted that `t`
is a Leaf (for example `name.value` in `make_annotation`). -/
def leafValue (t : PyTree) : String := (leafVal t).getD ""

/-- The token type of a leaf; `none` for interior nodes, whose lib2to3
`type` is a grammar symbol and never equal to a token type. -/
def tokOf : PyTree → Option TokTy
  | .leaf ty _ _ => some ty
  | .node _ _ => none

/-- lib2to3 `prefix`: a leaf's own prefix; a node's prefix is the
prefix of its first child (empty for a childless node). -/
def pfx : PyTree → String
  | .leaf _ _ p => p
  | .node _ [] => ""
  | .node _ (c :: _) => pfx c
termination_by structural t => t

/-- Does the tree have the given leaf value (lib2to3 `LeafPattern`)? -/
def valIs (t : PyTree) (s : String) : Bool := leafVal t == some s

/-- Whitespace characters stripped by Python `str.lstrip()`. -/
def isPySpace (c : Char) : Bool :=
  c == ' ' || c == '\t' || c == '\n' || c == '\r' || c == '\x0b' || c == '\x0c'

/-- Python `str.lstrip()` on a character list. -/
def lstripChars : List Char → List Char
  | [] => []
  | c :: cs => if isPySpace c then lstripChars cs else c :: cs

/-- Is the first list a prefix of the second (helper for Python
`str.startswith`)? -/
def startsWithB : List Char → List Char → Bool
  | [], _ => true
  | _ :: _, [] => false
  | a :: as, b :: bs => a == b && startsWithB as bs

/-- Python `s.startswith(pat)`. -/
def pyStarts (s pat : String) : Bool := startsWithB pat.data s.data

/-- Python `s.lstrip().startswith(pat)` (the marker test in
`FixAnnotate.transform`). -/
def pyLstripStarts (s pat : String) : Bool :=
  startsWithB pat.data (lstripChars s.data)

/-- Python `sep.join(items)`. -/
def joinSep (sep : String) : List String → String
  | [] => ""
  | [s] => s
  | s :: rest => s ++ sep ++ joinSep sep rest

/-- Python `re.match(r'\d+[lL]?$', s)`: one or more decimal digits
followed by an optional `l`/`L` suffix and nothing else. -/
def isIntLit (s : String) : Bool :=
  let ds := s.data.takeWhile Char.isDigit
  let rest := s.data.dropWhile Char.isDigit
  !ds.isEmpty && (rest == [] || rest == ['l'] || rest == ['L'])

/-!  `FixAnnotate.has_return_exprs` and `FixAnnotate.is_method`. -/

/-- Is the node a nested definition boundary (`syms.funcdef` or
`syms.classdef`), into which the searches below must not descend? -/
def isDefOrClass : PyTree → Bool
  | .node .funcdef _ => true
  | .node .classdef _ => true
  | _ => false

/-- The compiled pattern `return_stmt< 'return' any >`: a
`return_stmt` node with exactly two children whose first is a leaf
with value `return`.  A bare `return` never builds such a node: with a
single child, lib2to3 collapses `return_stmt` to the bare leaf. -/
def returnExprMatch : PyTree → Bool
  | .node .return_stmt [r, _] => valIs r "return"
  | _ => false

mutual
/-- Model of `FixAnnotate.has_return_exprs`: search the tree below `node` for a
value-returning `return`, recursing into children except nested
`funcdef`/`classdef` nodes. -/
def has_return_exprs : PyTree → Bool
  | .leaf _ _ _ => false
  | .node ty cs => returnExprMatch (.node ty cs) || hasReturnList cs

/-- The `for child in node.children` loop of `has_return_exprs`. -/
def hasReturnList : List PyTree → Bool
  | [] => false
  | c :: rest => (!isDefOrClass c && has_return_exprs c) || hasReturnList rest
end

/-- Model of `FixAnnotate.is_method`: walk the ancestor chain (types of the
proper ancestors, innermost first); `True` on the first `classdef`,
`False` on the first `funcdef` or when the chain is exhausted. -/
def is_method_tys : List NodeTy → Bool
  | [] => false
  | t :: rest =>
    if t = .classdef then true
    else if t = .funcdef then false
    else is_method_tys rest

/-!  `FixAnnotate.get_decorators` with its DECORATED pattern. -/

/-- Is the tree a `decorator` node? -/
def isDecorator : PyTree → Bool
  | .node .decorator _ => true
  | _ => false

/-- Is the tree a `funcdef` node? -/
def isFuncdef : PyTree → Bool
  | .node .funcdef _ => true
  | _ => false

/-- The compiled pattern
`decorated< (d=decorator | decorators< dd=decorator+ >) funcdef >`:
on success, the matched decorator-node list (`dd` or `[d]`, mirroring
`results.get('dd') or [results['d']]`). -/
def decoratedMatch : PyTree → Option (List PyTree)
  | .node .decorated [d, f] =>
    if isFuncdef f then
      match d with
      | .node .decorator dcs => some [.node .decorator dcs]
      | .node .decorators ds =>
        if !ds.isEmpty && ds.all isDecorator then some ds else none
      | _ => none
    else none
  | _ => none

/-- A NAME leaf's value, for the inner loop of `get_decorators`. -/
def nameLeafVal : PyTree → Option String
  | .leaf .NAME v _ => some v
  | _ => none

/-- Model of `FixAnnotate.get_decorators`, taking `node.parent` explicitly:
match the parent against DECORATED and collect the value of every NAME
leaf that is a direct child of a matched `decorator` node. -/
def get_decorators (parent : Option PyTree) : List String :=
  match parent with
  | none => []
  | some p =>
    match decoratedMatch p with
    | none => []
    | some ds => ds.flatMap (fun d => (childrenOf d).filterMap nameLeafVal)

/-!  `FixAnnotate.make_annotation` (embedded as `mkAnnot`). -/

/-- The result triple of `make_annotation`:
`(argtypes, restype, skipped_first)`. -/
structure Annot where
  argtypes : List String
  restype : String
  skipped_first : Bool
deriving Repr, DecidableEq

/-- Loop state of the child scan in `make_annotation`. -/
structure MAState where
  stars : String
  inferred : String
  in_default : Bool
  at_start : Bool
  skipped_first : Bool
  argtypes : List String
deriving Repr

/-- Initial loop state of `make_annotation`. -/
def maInit : MAState :=
  { stars := "", inferred := "", in_default := false, at_start := true,
    skipped_first := false, argtypes := [] }

/-- One iteration of `for child in children` in `make_annotation`.
Only Leaf children are inspected; the branch order mirrors the
`if`/`elif` chain of the source. -/
def maStep (isM : Bool) (decs : List String) (typeHints : Bool)
    (st : MAState) (child : PyTree) : MAState :=
  match child with
  | .node _ _ => st
  | .leaf ty v _ =>
    if v == "*" || v == "**" then
      if !typeHints then { st with stars := st.stars ++ v } else st
    else if ty = .NAME && !st.in_default then
      if !isM || !st.at_start || decs.contains "staticmethod" then
        { st with inferred := "Any" }
      else if v == "self" || decs.contains "classmethod" then
        { st with skipped_first := true }
      else
        { st with inferred := "Any" }
    else if v == "=" then
      { st with in_default := true }
    else if st.in_default && v != "," then
      if ty = .NUMBER then
        if isIntLit v then { st with inferred := "int" }
        else { st with inferred := "float" }
      else if ty = .STRING then
        if pyStarts v "u" || pyStarts v "U" then { st with inferred := "unicode" }
        else { st with inferred := "str" }
      else if ty = .NAME && (v == "True" || v == "False") then
        { st with inferred := "bool" }
      else st
    else if v == "," then
      { stars := "", inferred := "", in_default := false, at_start := false,
        skipped_first := st.skipped_first,
        argtypes :=
          st.argtypes ++ (if st.inferred != "" then [st.stars ++ st.inferred] else []) }
    else st

/-- The child list scanned by `make_annotation` and
`insert_long_form`: `args.children` for a Node, `[args]` for a Leaf,
`[]` when the optional `args` binding is absent. -/
def argsChildren : Option PyTree → List PyTree
  | some (.node _ cs) => cs
  | some (.leaf ty v p) => [.leaf ty v p]
  | none => []

/-- Model of `FixAnnotate.make_annotation`.  `parent` and `anc` carry the
parent node and the ancestor-type chain of `node` (see module
comment); `name` and `oargs` are the PATTERN bindings.  The source
always returns a triple (its `annot is None` guard in `transform` is
vestigial), so the embedding is total. -/
def mkAnnot (parent : Option PyTree) (anc : List NodeTy) (typeHints : Bool)
    (node name : PyTree) (oargs : Option PyTree) : Annot :=
  let decs := get_decorators parent
  let isM := is_method_tys anc
  let restype :=
    if leafValue name == "__init__" || !has_return_exprs node then "None" else "Any"
  let st := (argsChildren oargs).foldl (maStep isM decs typeHints) maInit
  { argtypes :=
      st.argtypes ++ (if st.inferred != "" then [st.stars ++ st.inferred] else []),
    restype := restype,
    skipped_first := st.skipped_first }

/-!  `FixAnnotate.get_parm_list` and `insert_python_3_annotation`. -/

/-- Position of a parameter leaf selected by `get_parm_list`, relative
to the parameter-list node: `mid` is `parm_list_children[1]` itself
(the single-Leaf case), `arg i` is child `i` of the interior node
`parm_list_children[1]`. -/
inductive ParmPos where
  | mid
  | arg (i : Nat)
deriving DecidableEq, Repr

/-- Loop state of the parameter scan in `get_parm_list`. -/
structure GPL where
  skip : Bool
  working : Option Nat
  parms : List ParmPos
deriving Repr

/-- One iteration of `for parm in parm_list_children[1].children` in
`get_parm_list`.  Token types are compared exactly as the source does;
interior children (for example a `tname` node of an already-annotated
parameter in a multi-parameter list) match no branch. -/
def gplStep (st : GPL) (ic : Nat × PyTree) : GPL :=
  if st.skip then
    if tokOf ic.2 = some .COMMA then
      match st.working with
      | some w => { skip := false, working := none, parms := st.parms ++ [.arg w] }
      | none => { st with skip := false }
    else st
  else
    if tokOf ic.2 = some .NAME then { st with working := some ic.1 }
    else if tokOf ic.2 = some .COLON then { st with working := none, skip := true }
    else if tokOf ic.2 = some .EQUAL then { st with skip := true }
    else if tokOf ic.2 = some .COMMA then
      match st.working with
      | some w => { st with working := none, parms := st.parms ++ [.arg w] }
      | none => st
    else st

/-- The scan of an interior `parm_list_children[1]`, including the
trailing `if working_parm: parms.append(working_parm)`. -/
def gplScan (xcs : List PyTree) : List ParmPos :=
  let st := xcs.enum.foldl gplStep { skip := false, working := none, parms := [] }
  st.parms ++ (match st.working with | some w => [.arg w] | none => [])

/-- Diagnostic of `get_parm_list` for an unexpected parameter-list
shape (the quotes of the original text are dropped). -/
def msgUnexpectedAst (fn : String) (ln : Nat) : String :=
  fn ++ ":" ++ toString ln ++ ": Unexpected AST: Expecting (args, ...) got something else..."

/-- Model of `FixAnnotate.get_parm_list`: positions of the parameter leaves to
annotate, plus any diagnostics.  The child list is expected to be
`'(' [args] ')'`; any other shape yields no positions and a logged
diagnostic. -/
def get_parm_list (fn : String) (ln : Nat) (plCs : List PyTree) :
    List ParmPos × List String :=
  match plCs with
  | [a, b] =>
    if tokOf a = some .LPAR && tokOf b = some .RPAR then ([], [])
    else ([], [msgUnexpectedAst fn ln])
  | [a, x, c] =>
    if tokOf a = some .LPAR && tokOf c = some .RPAR then
      match x with
      | .node _ xcs => (gplScan xcs, [])
      | .leaf _ _ _ => ([.mid], [])
    else ([], [msgUnexpectedAst fn ln])
  | _ => ([], [msgUnexpectedAst fn ln])

/-- The edit `parm.value = parm.value + ": " + annotation` on a leaf. -/
def annotateLeafVal (t : PyTree) (ann : String) : PyTree :=
  match t with
  | .leaf ty v p => .leaf ty (v ++ ": " ++ ann) p
  | n => n

/-- Find the annotation assigned to a position, if any. -/
def lookupPos : List (ParmPos × String) → ParmPos → Option String
  | [], _ => none
  | (q, a) :: rest, p => if q = p then some a else lookupPos rest p

/-- Apply the `for parm, annotation in zip(parms, argtypes)` edits to
the children of the parameter-list node.  Only position 1 can carry
edits; the positions name either that child itself or children of that
child (see `ParmPos`). -/
def applyAnns (plCs : List PyTree) (pairs : List (ParmPos × String)) : List PyTree :=
  plCs.enum.map (fun ic =>
    if ic.1 = 1 then
      match ic.2 with
      | .leaf ty v p =>
        match lookupPos pairs .mid with
        | some a => annotateLeafVal (.leaf ty v p) a
        | none => .leaf ty v p
      | .node nty ncs =>
        .node nty (ncs.enum.map (fun jc =>
          match lookupPos pairs (.arg jc.1) with
          | some a => annotateLeafVal jc.2 a
          | none => jc.2))
    else ic.2)

/-- Diagnostic for a parameter list that is not a Node. -/
def msgParmListNotNode (fn : String) (ln : Nat) : String :=
  fn ++ ":" ++ toString ln ++ ": Unexpected AST. Parameter list is not a Node."

/-- Diagnostic for the live-parameter / argument-type count mismatch. -/
def msgParmCount (fn : String) (ln : Nat) : String :=
  fn ++ ":" ++ toString ln ++ ": Unexpected parameter count: skipping"

/-- The return-type edit at the end of `insert_python_3_annotation`:
`rtn = parm_list.next_sibling` is the head of `rest`; when it is a
`':'` token and the function name does not start with `'__'`, its
value becomes `' -> {restype}:'`. -/
def editRtn (name : PyTree) (restype : String) (rest : List PyTree) : List PyTree :=
  match rest with
  | .leaf .COLON v p :: rest2 =>
    if pyStarts (leafValue name) "__" then .leaf .COLON v p :: rest2
    else .leaf .COLON (" -> " ++ restype ++ ":") p :: rest2
  | other => other

/-- Model of `FixAnnotate.insert_python_3_annotation` on the child list of the
matched `funcdef` (`[def, name, parm_list, ...rest]`; in a matched
node `rest` starts with the `':'` leaf).  Returns the new child list
and the diagnostics logged.  Mirrors the source: a non-Node parameter
list aborts with a diagnostic; the live parameters come from
`get_parm_list`; only when at least one live parameter exists are the
first-parameter skip and the arity check applied, and an arity
mismatch aborts before any edit; otherwise the selected leaves are
annotated and the return-type edit is applied. -/
def insertPy3Annot (fn : String) (ln : Nat) (cs : List PyTree) (an : Annot) :
    List PyTree × List String :=
  match cs with
  | dL :: name :: .node plTy plCs :: rest =>
    let gpl := get_parm_list fn ln plCs
    if gpl.1.length > 0 then
      let pidx2 := if an.skipped_first then gpl.1.drop 1 else gpl.1
      if pidx2.length ≠ an.argtypes.length then
        (dL :: name :: .node plTy plCs :: rest, gpl.2 ++ [msgParmCount fn ln])
      else
        (dL :: name :: .node plTy (applyAnns plCs (pidx2.zip an.argtypes)) ::
          editRtn name an.restype rest, gpl.2)
    else
      (dL :: name :: .node plTy plCs :: editRtn name an.restype rest, gpl.2)
  | dL :: name :: parmList :: rest =>
    (dL :: name :: parmList :: rest, [msgParmListNotNode fn ln])
  | other => (other, [])

/-!  `FixAnnotate.insert_python_2_annotation`. -/

/-- Diagnostic for a suite without an INDENT token. -/
def msgOneLine (fn : String) (ln : Nat) : String :=
  fn ++ ":" ++ toString ln ++ ": cannot insert annotation for one-line function"

/-- Model of `FixAnnotate.insert_python_2_annotation` on `children`, the child
list of `suite[0]`.  Returns the new child list, the diagnostics, and
whether the long form was chosen (in the source the long-form branch
additionally calls `insert_long_form`, which rewrites per-parameter
prefixes inside the parameter list; that column-dependent whitespace
surgery is outside this model).  The `# type:` comment is spliced into
the prefix of the INDENT token: the new prefix is
`value + '# type: ' + annot_str + '\n' + old prefix`. -/
def insertPy2Annot (fn : String) (ln : Nat) (schildren : List PyTree) (an : Annot) :
    List PyTree × List String × Bool :=
  match schildren with
  | c0 :: .leaf .INDENT v p :: rest =>
    let degenStr := "(...) -> " ++ an.restype
    let shortStr := "(" ++ joinSep ", " an.argtypes ++ ") -> " ++ an.restype
    let useLong :=
      (shortStr.length > 64 || an.argtypes.length > 5) && shortStr.length > degenStr.length
    let annotStr := if useLong then degenStr else shortStr
    (c0 :: .leaf .INDENT v (v ++ "# type: " ++ annotStr ++ "\n" ++ p) :: rest,
      [], useLong)
  | _ => (schildren, [msgOneLine fn ln], false)

/-!  `FixAnnotate.PATTERN` and `FixAnnotate.transform`. -/

/-- The parameters sub-pattern `parameters< '(' [args=any] ')' >`. -/
def isParens : PyTree → Bool
  | .node .parameters [a, b] => valIs a "(" && valIs b ")"
  | .node .parameters [a, _, b] => valIs a "(" && valIs b ")"
  | _ => false

/-- Model of `FixAnnotate.PATTERN`:
`funcdef< 'def' name=any parameters< '(' [args=any] ')' > ':' suite=any+ >`.
A funcdef that carries a `-> T` return annotation has `'->'` and the
annotation between the parameters and the `':'`, so it never matches. -/
def patternMatch : PyTree → Bool
  | .node .funcdef (dL :: _ :: parmList :: colon :: suite) =>
    valIs dL "def" && isParens parmList && valIs colon ":" && !suite.isEmpty
  | _ => false

/-- Replace a node's children (in-place mutation of `suite[0]`). -/
def setChildren : PyTree → List PyTree → PyTree
  | .node ty _, cs => .node ty cs
  | l, _ => l

/-- Model of `FixAnnotate.transform` on a matched node (the PATTERN bindings
`name`, `args`, `suite` are recovered from the matched shape:
children `[def, name, parameters, ':', suite...]`, with `args` the
middle child of the parameters node when present).  First the
already-annotated check: if the prefix of any child of `suite[0]`
lstrips to a string starting with `# type:`, nothing changes.
Otherwise the annotation is computed and inserted in the configured
style.  The MAXFIXES counter is modelled in its default, unset,
state (no budget), and `patch_imports` edits lie outside the function
node. -/
def transform (parent : Option PyTree) (anc : List NodeTy) (typeHints : Bool)
    (fn : String) (ln : Nat) (fd : PyTree) : PyTree × List String :=
  match fd with
  | .node .funcdef (dL :: name :: parmList :: colon :: suiteHd :: suiteRest) =>
    if (childrenOf suiteHd).any (fun ch => pyLstripStarts (pfx ch) "# type:") then
      (.node .funcdef (dL :: name :: parmList :: colon :: suiteHd :: suiteRest), [])
    else
      let oargs : Option PyTree :=
        match parmList with
        | .node _ [_, x, _] => some x
        | _ => none
      let an := mkAnnot parent anc typeHints
        (.node .funcdef (dL :: name :: parmList :: colon :: suiteHd :: suiteRest))
        name oargs
      if typeHints then
        let r := insertPy3Annot fn ln
          (dL :: name :: parmList :: colon :: suiteHd :: suiteRest) an
        (.node .funcdef r.1, r.2)
      else
        let r := insertPy2Annot fn ln (childrenOf suiteHd) an
        (.node .funcdef
          (dL :: name :: parmList :: colon :: setChildren suiteHd r.1 :: suiteRest),
          r.2.1)
  | other => (other, [])

/-- One fixer step on one candidate node, as driven by the lib2to3
refactoring tool: `transform` runs only when PATTERN matches. -/
def runFixer (parent : Option PyTree) (anc : List NodeTy) (typeHints : Bool)
    (fn : String) (ln : Nat) (fd : PyTree) : PyTree × List String :=
  if patternMatch fd then transform parent anc typeHints fn ln fd else (fd, [])

/-!  `pyannotate_tools/annotations/main.py`: `revert_annotations`. -/

/-- Schema of a function signature in the output (`Signature`). -/
structure Signature where
  arg_types : List String
  return_type : String
deriving Repr, DecidableEq

/-- Schema of a function in the output (`FunctionData`). -/
structure FunctionData where
  path : String
  line : Nat
  func_name : String
  signature : Signature
  samples : Nat
deriving Repr, DecidableEq

/-- Schema of an input sample record
(`pyannotate_tools.annotations.parse.RawEntry`). -/
structure RawEntry where
  path : String
  line : Nat
  func_name : String
  type_comments : List String
  samples : Nat
deriving Repr, DecidableEq

/-- Model of `revert_annotations`: rebuild one sample record per output record,
with the combined `(arg1, arg2, ...) -> ret` string as the single
type comment. -/
def revert_annotations (data : List FunctionData) : List RawEntry :=
  data.map (fun item =>
    { path := item.path, line := item.line, func_name := item.func_name,
      type_comments :=
        ["(" ++ joinSep ", " item.signature.arg_types ++ ") -> "
          ++ item.signature.return_type],
      samples := item.samples })

/-!  Observation helpers for stating the claims. -/

/-- The fourth child of a funcdef node: the `':'` token after the
parameter list (rewritten to `' -> T:'` by the return-type edit). -/
def colonValOf : PyTree → Option String
  | .node .funcdef (_ :: _ :: _ :: c :: _) => leafVal c
  | _ => none

/-- The same observation on a bare funcdef child list (the type
`insertPy3Annot` works on). -/
def colonValOfList : List PyTree → Option String
  | _ :: _ :: _ :: c :: _ => leafVal c
  | _ => none

/-- Value of child `i` of the interior node between the parentheses of
a funcdef's parameter list. -/
def paramLeafVal (fd : PyTree) (i : Nat) : Option String :=
  match fd with
  | .node .funcdef (_ :: _ :: .node _ [_, x, _] :: _) => ((childrenOf x)[i]?).bind leafVal
  | _ => none

/-- Value of a single-leaf entry between the parentheses of a
funcdef's parameter list. -/
def paramMidVal : PyTree → Option String
  | .node .funcdef (_ :: _ :: .node _ [_, x, _] :: _) => leafVal x
  | _ => none

/-- Python `s.endswith(pat)`; needed only to state the spec's
both-underscore-wrapped (dunder) naming convention in claim C4. -/
def pyEnds (s pat : String) : Bool := startsWithB pat.data.reverse s.data.reverse

/-!  Concrete parse trees used by the claim theorems.  Each tree
follows the shapes lib2to3 produces, including the collapsing of
single-child nodes (a bare `return` is a NAME leaf, a single
unannotated parameter is a NAME leaf directly between the
parentheses, a single annotated parameter is a `tname` node). -/

/-- Suite of a one-statement body `return e` (value-returning). -/
def suiteRet (e : PyTree) : PyTree :=
  .node .suite [.leaf .NEWLINE "\n" "", .leaf .INDENT "    " "",
    .node .simple_stmt [.node .return_stmt [.leaf .NAME "return" "", e],
      .leaf .NEWLINE "\n" ""],
    .leaf .DEDENT "" ""]

/-- Suite of a one-statement body that is a bare `return` (lib2to3
collapses the one-child `return_stmt` to the bare NAME leaf). -/
def suiteBareRet : PyTree :=
  .node .suite [.leaf .NEWLINE "\n" "", .leaf .INDENT "    " "",
    .node .simple_stmt [.leaf .NAME "return" "", .leaf .NEWLINE "\n" ""],
    .leaf .DEDENT "" ""]

/-- C1: `def incr(arg): ...` whose body already carries a
`# type: (Any) -> Any` comment in the INDENT prefix. -/
def fdC1marked : PyTree := .node .funcdef [
  .leaf .NAME "def" "", .leaf .NAME "incr" " ",
  .node .parameters [.leaf .LPAR "(" "", .leaf .NAME "arg" "", .leaf .RPAR ")" ""],
  .leaf .COLON ":" "",
  .node .suite [.leaf .NEWLINE "\n" "",
    .leaf .INDENT "    " "    # type: (Any) -> Any\n",
    .node .simple_stmt [.node .return_stmt [.leaf .NAME "return" "",
      .leaf .NUMBER "42" " "], .leaf .NEWLINE "\n" ""],
    .leaf .DEDENT "" ""]]

/-- C1: the fully inline-annotated header `def incr(arg: Any) -> Any:`;
the `'->'` and the annotation sit between the parameters and the `':'`. -/
def fdC1arrow : PyTree := .node .funcdef [
  .leaf .NAME "def" "", .leaf .NAME "incr" " ",
  .node .parameters [.leaf .LPAR "(" "",
    .node .tname [.leaf .NAME "arg" "", .leaf .COLON ":" "", .leaf .NAME "Any" " "],
    .leaf .RPAR ")" ""],
  .leaf .ARROW "->" " ", .leaf .NAME "Any" " ", .leaf .COLON ":" "",
  suiteRet (.leaf .NUMBER "42" " ")]

/-- C2: the parameter list `self, arg`. -/
def targsC2 : PyTree := .node .typedargslist
  [.leaf .NAME "self" "", .leaf .COMMA "," "", .leaf .NAME "arg" " "]

/-- C2: `def incr(self, arg): return 42` (the test-suite example). -/
def fdC2 : PyTree := .node .funcdef [
  .leaf .NAME "def" "", .leaf .NAME "incr" " ",
  .node .parameters [.leaf .LPAR "(" "", targsC2, .leaf .RPAR ")" ""],
  .leaf .COLON ":" "", suiteRet (.leaf .NUMBER "42" " ")]

/-- C2: the inline rendering of `fdC2` as a method (self untouched). -/
def fdC2methodOut : PyTree := .node .funcdef [
  .leaf .NAME "def" "", .leaf .NAME "incr" " ",
  .node .parameters [.leaf .LPAR "(" "",
    .node .typedargslist
      [.leaf .NAME "self" "", .leaf .COMMA "," "", .leaf .NAME "arg: Any" " "],
    .leaf .RPAR ")" ""],
  .leaf .COLON " -> Any:" "", suiteRet (.leaf .NUMBER "42" " ")]

/-- C2: `def incr(self): return 42` (to sit under `@staticmethod`). -/
def fdC2s : PyTree := .node .funcdef [
  .leaf .NAME "def" "", .leaf .NAME "incr" " ",
  .node .parameters [.leaf .LPAR "(" "", .leaf .NAME "self" "", .leaf .RPAR ")" ""],
  .leaf .COLON ":" "", suiteRet (.leaf .NUMBER "42" " ")]

/-- C2: the `decorated` parent `@staticmethod def incr(self): ...`. -/
def decC2s : PyTree := .node .decorated [.node .decorator
  [.leaf .AT "@" "", .leaf .NAME "staticmethod" "", .leaf .NEWLINE "\n" ""], fdC2s]

/-- C2: the parameter list `cls, arg`. -/
def targsC2c : PyTree := .node .typedargslist
  [.leaf .NAME "cls" "", .leaf .COMMA "," "", .leaf .NAME "arg" " "]

/-- C2: `def incr(cls, arg): return 42` (to sit under `@classmethod`). -/
def fdC2c : PyTree := .node .funcdef [
  .leaf .NAME "def" "", .leaf .NAME "incr" " ",
  .node .parameters [.leaf .LPAR "(" "", targsC2c, .leaf .RPAR ")" ""],
  .leaf .COLON ":" "", suiteRet (.leaf .NUMBER "42" " ")]

/-- C2: the `decorated` parent `@classmethod def incr(cls, arg): ...`. -/
def decC2c : PyTree := .node .decorated [.node .decorator
  [.leaf .AT "@" "", .leaf .NAME "classmethod" "", .leaf .NEWLINE "\n" ""], fdC2c]

/-- C3: the already-annotated single parameter `x: int`. -/
def tnameC3 : PyTree := .node .tname
  [.leaf .NAME "x" "", .leaf .COLON ":" "", .leaf .NAME "int" " "]

/-- C3: `def f(x: int): return 1` — one computed argument type but
zero live parameters. -/
def fdC3 : PyTree := .node .funcdef [
  .leaf .NAME "def" "", .leaf .NAME "f" " ",
  .node .parameters [.leaf .LPAR "(" "", tnameC3, .leaf .RPAR ")" ""],
  .leaf .COLON ":" "", suiteRet (.leaf .NUMBER "1" " ")]

/-- C3 witness: the parameter-list children of `def g(x): ...`. -/
def plC3w : List PyTree :=
  [.leaf .LPAR "(" "", .leaf .NAME "x" "", .leaf .RPAR ")" ""]

/-- C3 witness: funcdef children of `def g(x): ...`. -/
def csC3w : List PyTree :=
  [.leaf .NAME "def" "", .leaf .NAME "g" " ", .node .parameters plC3w,
    .leaf .COLON ":" "", suiteBareRet]

/-- C4/C10 helper: `def {v}(x): return 1` at module level, with the
single unannotated parameter `x`. -/
def mkSimpleFd (v : String) : PyTree := .node .funcdef [
  .leaf .NAME "def" "", .leaf .NAME v " ",
  .node .parameters [.leaf .LPAR "(" "", .leaf .NAME "x" "", .leaf .RPAR ")" ""],
  .leaf .COLON ":" "", suiteRet (.leaf .NUMBER "1" " ")]

/-- C5: `def proc1(arg): return` — only a bare return. -/
def fdC5bare : PyTree := .node .funcdef [
  .leaf .NAME "def" "", .leaf .NAME "proc1" " ",
  .node .parameters [.leaf .LPAR "(" "", .leaf .NAME "arg" "", .leaf .RPAR ")" ""],
  .leaf .COLON ":" "", suiteBareRet]

/-- C5: the nested `def inner(): return 42`. -/
def fdC5inner : PyTree := .node .funcdef [
  .leaf .NAME "def" "", .leaf .NAME "inner" " ",
  .node .parameters [.leaf .LPAR "(" "", .leaf .RPAR ")" ""],
  .leaf .COLON ":" "", suiteRet (.leaf .NUMBER "42" " ")]

/-- C5: `def outer(arg):` with a nested value-returning `inner` and a
bare `return` of its own (the test-suite example). -/
def fdC5nested : PyTree := .node .funcdef [
  .leaf .NAME "def" "", .leaf .NAME "outer" " ",
  .node .parameters [.leaf .LPAR "(" "", .leaf .NAME "arg" "", .leaf .RPAR ")" ""],
  .leaf .COLON ":" "",
  .node .suite [.leaf .NEWLINE "\n" "", .leaf .INDENT "    " "",
    fdC5inner,
    .node .simple_stmt [.leaf .NAME "return" "", .leaf .NEWLINE "\n" ""],
    .leaf .DEDENT "" ""]]

/-- C5: `def f(): return 42` — a value-returning return. -/
def fdC5value : PyTree := .node .funcdef [
  .leaf .NAME "def" "", .leaf .NAME "f" " ",
  .node .parameters [.leaf .LPAR "(" "", .leaf .RPAR ")" ""],
  .leaf .COLON ":" "", suiteRet (.leaf .NUMBER "42" " ")]

/-- C6: a parameter-list child list of unexpected shape (four
children instead of `'(' [args] ')'`). -/
def plC6bad : List PyTree :=
  [.leaf .LPAR "(" "", .leaf .NAME "x" "", .leaf .NAME "y" " ", .leaf .RPAR ")" ""]

/-- C6: funcdef children around the malformed parameter list. -/
def csC6 : List PyTree :=
  [.leaf .NAME "def" "", .leaf .NAME "f" " ", .node .parameters plC6bad,
    .leaf .COLON ":" "", suiteBareRet]

/-- C6 witness: a different malformed parameter-list child list. -/
def plC6w : List PyTree :=
  [.leaf .LPAR "(" "", .leaf .NAME "a" "", .leaf .NAME "b" " ",
    .leaf .NAME "c" " ", .leaf .RPAR ")" ""]

/-- C6 witness: funcdef children around `plC6w`. -/
def csC6w : List PyTree :=
  [.leaf .NAME "def" "", .leaf .NAME "h" " ", .node .parameters plC6w,
    .leaf .COLON ":" "", suiteBareRet]

/-- C7: suite children `[NEWLINE, INDENT]` receiving the comment. -/
def py2C7kids : List PyTree := [.leaf .NEWLINE "\n" "", .leaf .INDENT "    " ""]

/-- C7: a sixty-character return type rendering. -/
def longC7 : String := String.mk (List.replicate 60 'R')

/-- C8: the parameterized decorator `@wrapped("func")`; lib2to3
collapses the one-name `dotted_name` to the NAME leaf `wrapped`. -/
def decoC8wrapped : PyTree := .node .decorator [
  .leaf .AT "@" "", .leaf .NAME "wrapped" "",
  .leaf .LPAR "(" "", .leaf .STRING "\x22func\x22" "", .leaf .RPAR ")" "",
  .leaf .NEWLINE "\n" ""]

/-- C8: the plain decorator `@staticmethod`. -/
def decoC8static : PyTree := .node .decorator
  [.leaf .AT "@" "", .leaf .NAME "staticmethod" "", .leaf .NEWLINE "\n" ""]

/-- C8: the plain decorator `@classmethod`. -/
def decoC8cm : PyTree := .node .decorator
  [.leaf .AT "@" "", .leaf .NAME "classmethod" "", .leaf .NEWLINE "\n" ""]

/-- C8: a minimal decorated funcdef `def f(): return 1`. -/
def fdC8 : PyTree := .node .funcdef [
  .leaf .NAME "def" "", .leaf .NAME "f" " ",
  .node .parameters [.leaf .LPAR "(" "", .leaf .RPAR ")" ""],
  .leaf .COLON ":" "", suiteRet (.leaf .NUMBER "1" " ")]

/-- C9 witness: a one-record output list. -/
def dataC9 : List FunctionData :=
  [{ path := "a.py", line := 3, func_name := "f",
     signature := { arg_types := ["int", "str"], return_type := "bool" },
     samples := 2 }]

/-- C10 helper: `def {v}(x: Any): return 1` — the single live
parameter already carries an inline annotation, no return annotation,
no type comment. -/
def mkAnnFd (v : String) : PyTree := .node .funcdef [
  .leaf .NAME "def" "", .leaf .NAME v " ",
  .node .parameters [.leaf .LPAR "(" "",
    .node .tname [.leaf .NAME "x" "", .leaf .COLON ":" "", .leaf .NAME "Any" " "],
    .leaf .RPAR ")" ""],
  .leaf .COLON ":" "", suiteRet (.leaf .NUMBER "1" " ")]

/-- C10 helper: `mkAnnFd v` after the pass appends the return suffix. -/
def mkAnnFdOut (v : String) : PyTree := .node .funcdef [
  .leaf .NAME "def" "", .leaf .NAME v " ",
  .node .parameters [.leaf .LPAR "(" "",
    .node .tname [.leaf .NAME "x" "", .leaf .COLON ":" "", .leaf .NAME "Any" " "],
    .leaf .RPAR ")" ""],
  .leaf .COLON " -> Any:" "", suiteRet (.leaf .NUMBER "1" " ")]

/-!  Claim theorems. -/

/-- Claim C1: the pass is a no-op on already-annotated functions.  In
comment style, a `# type:` marker in the prefix of any child of the
suite makes `transform` return without touching the node.  In inline
style, an already-annotated function carries a `-> T` return
annotation, so its funcdef has `'->'` where PATTERN demands `':'` and
the fixer never fires, for either configured style. -/
theorem C1_idempotent (parent : Option PyTree) (anc : List NodeTy) (th : Bool)
    (fn : String) (ln : Nat) (dL nm parmList colon suiteHd arrow : PyTree)
    (rest rest2 : List PyTree) :
    ((childrenOf suiteHd).any (fun ch => pyLstripStarts (pfx ch) "# type:") = true →
      runFixer parent anc false fn ln
          (.node .funcdef (dL :: nm :: parmList :: colon :: suiteHd :: rest)) =
        (.node .funcdef (dL :: nm :: parmList :: colon :: suiteHd :: rest), [])) ∧
    (leafVal arrow = some "->" →
      runFixer parent anc th fn ln
          (.node .funcdef (dL :: nm :: parmList :: arrow :: rest2)) =
        (.node .funcdef (dL :: nm :: parmList :: arrow :: rest2), [])) := by
  constructor
  · intro h
    by_cases hpm : patternMatch
        (.node .funcdef (dL :: nm :: parmList :: colon :: suiteHd :: rest)) = true
    · simp [runFixer, hpm, transform, h]
    · simp [runFixer, hpm]
  · intro h
    have e : ((some "->" : Option String) == some ":") = false := rfl
    have hpm : patternMatch
        (.node .funcdef (dL :: nm :: parmList :: arrow :: rest2)) = false := by
      simp [patternMatch, valIs, h, e]
    simp [runFixer, hpm]

/-- Witness for C1: a comment-annotated function and a fully
inline-annotated function each pass through the fixer unchanged. -/
theorem C1_idempotent_witness :
    runFixer none [.file_input] false "p.py" 1 fdC1marked = (fdC1marked, []) ∧
    runFixer none [.file_input] true "p.py" 2 fdC1arrow = (fdC1arrow, []) :=
  ⟨(C1_idempotent none [.file_input] false "p.py" 1 (.leaf .NAME "def" "")
      (.leaf .NAME "incr" " ")
      (.node .parameters [.leaf .LPAR "(" "", .leaf .NAME "arg" "", .leaf .RPAR ")" ""])
      (.leaf .COLON ":" "")
      (.node .suite [.leaf .NEWLINE "\n" "",
        .leaf .INDENT "    " "    # type: (Any) -> Any\n",
        .node .simple_stmt [.node .return_stmt [.leaf .NAME "return" "",
          .leaf .NUMBER "42" " "], .leaf .NEWLINE "\n" ""],
        .leaf .DEDENT "" ""])
      (.leaf .ARROW "->" " ") [] []).1 (by decide),
   (C1_idempotent none [.file_input] true "p.py" 2 (.leaf .NAME "def" "")
      (.leaf .NAME "incr" " ")
      (.node .parameters [.leaf .LPAR "(" "",
        .node .tname [.leaf .NAME "arg" "", .leaf .COLON ":" "", .leaf .NAME "Any" " "],
        .leaf .RPAR ")" ""])
      (.leaf .COLON ":" "") (.leaf .COLON ":" "") (.leaf .ARROW "->" " ") []
      [.leaf .NAME "Any" " ", .leaf .COLON ":" "", suiteRet (.leaf .NUMBER "42" " ")]).2
      rfl⟩

/-- Claim C2 counterexample: on the module-level
`def incr(self, arg): return 42` the inline pass does annotate `self`
(the repository's own `test_fake_self` expects exactly this), so the
claim's rendering with `self` untouched is wrong. -/
theorem C2_counterexample :
    paramLeafVal fdC2 0 = some "self" ∧
    paramLeafVal (runFixer none [.file_input] true "p.py" 1 fdC2).1 0
      = some "self: Any" ∧
    colonValOf (runFixer none [.file_input] true "p.py" 1 fdC2).1 = some " -> Any:" ∧
    (some "self: Any" ≠ some "self") :=
  ⟨rfl, rfl, rfl, by decide⟩

/-- Helper for C2: one `make_annotation` step never sets the
first-parameter skip when the function is not a method. -/
theorem maStep_not_method (decs : List String) (th : Bool) (st : MAState)
    (c : PyTree) (h : st.skipped_first = false) :
    (maStep false decs th st c).skipped_first = false := by
  cases c with
  | node ty cs => simpa [maStep] using h
  | leaf ty v p =>
    unfold maStep
    repeat' split
    all_goals simp_all

/-- Helper for C2: the whole `make_annotation` scan never sets the
first-parameter skip when the function is not a method. -/
theorem maFold_not_method (decs : List String) (th : Bool) (cs : List PyTree)
    (st : MAState) (h : st.skipped_first = false) :
    (cs.foldl (maStep false decs th) st).skipped_first = false := by
  induction cs generalizing st with
  | nil => simpa using h
  | cons c cs ih =>
    rw [List.foldl_cons]
    exact ih _ (maStep_not_method decs th st c h)

/-- Claim C2, amended: the first-parameter skip applies only to
functions directly inside a class.  For a non-method the skip flag is
never set; inside a class, `def incr(self, arg)` renders with `self`
untouched; under `@staticmethod` the first parameter is annotated even
when named `self`; under `@classmethod` the first parameter is skipped
even when named `cls`. -/
theorem C2_amended (parent : Option PyTree) (anc : List NodeTy) (th : Bool)
    (nd nm : PyTree) (oargs : Option PyTree)
    (h : is_method_tys anc = false) :
    (mkAnnot parent anc th nd nm oargs).skipped_first = false ∧
    (runFixer (some (.node .suite [])) [.suite, .classdef] true "p.py" 1 fdC2).1
      = fdC2methodOut ∧
    mkAnnot (some decC2s) [.decorated, .suite, .classdef] true fdC2s
        (.leaf .NAME "incr" " ") (some (.leaf .NAME "self" ""))
      = ⟨["Any"], "Any", false⟩ ∧
    mkAnnot (some decC2c) [.decorated, .suite, .classdef] true fdC2c
        (.leaf .NAME "incr" " ") (some targsC2c)
      = ⟨["Any"], "Any", true⟩ := by
  refine ⟨?_, rfl, rfl, rfl⟩
  have hf := maFold_not_method (get_decorators parent) th (argsChildren oargs)
    maInit rfl
  simpa [mkAnnot, h] using hf

/-- Witness for C2 amended, at the module-level `incr` tree. -/
theorem C2_amended_witness :
    is_method_tys [NodeTy.file_input] = false ∧
    (mkAnnot none [.file_input] true fdC2 (.leaf .NAME "incr" " ")
        (some targsC2)).skipped_first = false :=
  ⟨by decide, (C2_amended none [.file_input] true fdC2 (.leaf .NAME "incr" " ")
      (some targsC2) (by decide)).1⟩

/-- Claim C3 counterexample: `def f(x: int): return 1` has zero live
parameters but one computed argument type — a mismatch — yet the pass
emits no diagnostic and still edits the function, rewriting `':'` to
`' -> Any:'` (the arity guard only runs when at least one live
parameter exists). -/
theorem C3_counterexample :
    (get_parm_list "p.py" 1 [.leaf .LPAR "(" "", tnameC3, .leaf .RPAR ")" ""]).1
      = [] ∧
    (mkAnnot none [.file_input] true fdC3 (.leaf .NAME "f" " ")
        (some tnameC3)).argtypes.length = 1 ∧
    (runFixer none [.file_input] true "p.py" 1 fdC3).2 = [] ∧
    colonValOf fdC3 = some ":" ∧
    colonValOf (runFixer none [.file_input] true "p.py" 1 fdC3).1
      = some " -> Any:" :=
  ⟨rfl, rfl, rfl, rfl, rfl⟩

/-- Claim C3, amended: when the live parameter list is nonempty and
its count after the first-parameter skip differs from the number of
computed argument types, the function is left entirely unedited and a
diagnostic naming file and line is appended. -/
theorem C3_amended (fn : String) (ln : Nat) (dL nm : PyTree) (plTy : NodeTy)
    (plCs rest : List PyTree) (an : Annot)
    (h1 : (get_parm_list fn ln plCs).1 ≠ [])
    (h2 : (if an.skipped_first then (get_parm_list fn ln plCs).1.drop 1
           else (get_parm_list fn ln plCs).1).length ≠ an.argtypes.length) :
    insertPy3Annot fn ln (dL :: nm :: .node plTy plCs :: rest) an =
      (dL :: nm :: .node plTy plCs :: rest,
        (get_parm_list fn ln plCs).2 ++ [msgParmCount fn ln]) := by
  have hl : (get_parm_list fn ln plCs).1.length > 0 := List.length_pos.mpr h1
  have h2t : (if an.skipped_first = true then (get_parm_list fn ln plCs).1.tail
      else (get_parm_list fn ln plCs).1).length ≠ an.argtypes.length := by
    simpa [List.drop_one] using h2
  simp [insertPy3Annot, hl, h2t]

/-- Witness for C3 amended: `def g(x)` paired with two computed
argument types is left unchanged with the arity diagnostic. -/
theorem C3_amended_witness :
    (get_parm_list "p.py" 3 plC3w).1 ≠ [] ∧
    insertPy3Annot "p.py" 3 csC3w ⟨["Any", "Any"], "Any", false⟩
      = (csC3w, [msgParmCount "p.py" 3]) :=
  ⟨by decide,
    C3_amended "p.py" 3 (.leaf .NAME "def" "") (.leaf .NAME "g" " ") .parameters
      plC3w [.leaf .COLON ":" "", suiteBareRet] ⟨["Any", "Any"], "Any", false⟩
      (by decide) (by decide)⟩

/-- Claim C4 counterexample: `__foo` is not both-underscore-wrapped,
so the claim demands a return suffix, but the pass suppresses it: the
check is only `name.startswith('__')`.  The parameter is still
annotated, so the function was processed, not skipped. -/
theorem C4_counterexample :
    (pyStarts "__foo" "__" && pyEnds "__foo" "__") = false ∧
    colonValOf (runFixer none [.file_input] true "p.py" 1 (mkSimpleFd "__foo")).1
      = some ":" ∧
    paramMidVal (runFixer none [.file_input] true "p.py" 1 (mkSimpleFd "__foo")).1
      = some "x: Any" :=
  ⟨by decide, rfl, rfl⟩

/-- Claim C4, amended: for the module-level family
`def {v}(x): return 1`, the inline return suffix is inserted exactly
when the name does not start with a double underscore (not: exactly
when it is not dunder-wrapped). -/
theorem C4_amended (v : String) :
    colonValOf (runFixer none [.file_input] true "p.py" 1 (mkSimpleFd v)).1 =
      some (if pyStarts v "__" then ":" else " -> Any:") := by
  have hstep : runFixer none [.file_input] true "p.py" 1 (mkSimpleFd v) =
      (.node .funcdef (.leaf .NAME "def" "" :: .leaf .NAME v " " ::
        .node .parameters
          [.leaf .LPAR "(" "", .leaf .NAME "x: Any" "", .leaf .RPAR ")" ""] ::
        editRtn (.leaf .NAME v " ")
          (if (v == "__init__" || !has_return_exprs (mkSimpleFd v)) = true
           then "None" else "Any")
          [.leaf .COLON ":" "", suiteRet (.leaf .NUMBER "1" " ")]),
       []) := rfl
  cases hv : pyStarts v "__" with
  | true =>
    rw [hstep]
    simp only [editRtn, leafValue, leafVal, Option.getD, hv]
    rfl
  | false =>
    have hbi : (v == "__init__") = false := by
      cases hbe : v == "__init__" with
      | false => rfl
      | true =>
        have hveq : v = "__init__" := eq_of_beq hbe
        rw [hveq] at hv
        exact absurd hv (by decide)
    rw [hstep]
    simp only [editRtn, leafValue, leafVal, Option.getD, hv, hbi]
    rfl

/-- Claim C6 counterexample: on a parameter list of unexpected shape
(four children), `insert_python_3_annotation` logs the diagnostic but
still edits the function: the `':'` token is rewritten to the return
suffix, so the edit is not withheld atomically. -/
theorem C6_counterexample :
    (insertPy3Annot "p.py" 3 csC6 ⟨["Any"], "Any", false⟩).2
      = [msgUnexpectedAst "p.py" 3] ∧
    colonValOfList csC6 = some ":" ∧
    colonValOfList (insertPy3Annot "p.py" 3 csC6 ⟨["Any"], "Any", false⟩).1
      = some " -> Any:" :=
  ⟨rfl, rfl, rfl⟩

/-- Claim C6, amended: when `get_parm_list` rejects the
parameter-list shape it yields no live parameters plus its diagnostic;
`insert_python_3_annotation` then leaves every parameter token
unchanged and propagates the diagnostic, but still applies the
return-type edit to the token following the parameter list; only a
parameter list that is not an interior node at all aborts with no
edit whatsoever. -/
theorem C6_amended (fn : String) (ln : Nat) (dL nm : PyTree) (plTy : NodeTy)
    (plCs rest : List PyTree) (an : Annot)
    (h : (get_parm_list fn ln plCs).1 = []) :
    insertPy3Annot fn ln (dL :: nm :: .node plTy plCs :: rest) an =
      (dL :: nm :: .node plTy plCs :: editRtn nm an.restype rest,
        (get_parm_list fn ln plCs).2) ∧
    (∀ ty v p, insertPy3Annot fn ln (dL :: nm :: .leaf ty v p :: rest) an =
      (dL :: nm :: .leaf ty v p :: rest, [msgParmListNotNode fn ln])) := by
  constructor
  · simp [insertPy3Annot, h]
  · intro ty v p
    rfl

/-- Witness for C6 amended: a five-child parameter list is rejected
with a diagnostic, yet the colon still becomes `' -> None:'`. -/
theorem C6_amended_witness :
    (get_parm_list "p.py" 7 plC6w).1 = [] ∧
    insertPy3Annot "p.py" 7 csC6w ⟨[], "None", false⟩
      = ([.leaf .NAME "def" "", .leaf .NAME "h" " ", .node .parameters plC6w,
          .leaf .COLON " -> None:" "", suiteBareRet],
         [msgUnexpectedAst "p.py" 7]) :=
  ⟨rfl,
    C6_amended "p.py" 7 (.leaf .NAME "def" "") (.leaf .NAME "h" " ") .parameters
      plC6w [.leaf .COLON ":" "", suiteBareRet] ⟨[], "None", false⟩ rfl |>.1⟩

/-- Claim C10 counterexample: `def __priv(x: Any): return 1` has all
live parameters annotated, no return annotation and no type comment,
yet the pass leaves it completely unchanged — no return suffix is
appended, because the name starts with a double underscore. -/
theorem C10_counterexample :
    runFixer none [.file_input] true "p.py" 1 (mkAnnFd "__priv")
      = (mkAnnFd "__priv", []) ∧
    colonValOf (mkAnnFd "__priv") = some ":" ∧
    paramMidVal (mkAnnFd "__priv") = none ∧
    paramLeafVal (mkAnnFd "__priv") 0 = some "x" :=
  ⟨rfl, rfl, rfl, rfl⟩

/-- Claim C10, amended: for the family `def {v}(x: Any): return 1`
(every live parameter already annotated, no return annotation, no
type comment), the inline pass leaves every parameter token unchanged
and appends the return suffix — unless the name starts with a double
underscore, in which case the function is left entirely unchanged. -/
theorem C10_amended (v : String) :
    runFixer none [.file_input] true "p.py" 1 (mkAnnFd v) =
      ((if pyStarts v "__" then mkAnnFd v else mkAnnFdOut v), []) := by
  have hstep : runFixer none [.file_input] true "p.py" 1 (mkAnnFd v) =
      (.node .funcdef (.leaf .NAME "def" "" :: .leaf .NAME v " " ::
        .node .parameters [.leaf .LPAR "(" "",
          .node .tname [.leaf .NAME "x" "", .leaf .COLON ":" "", .leaf .NAME "Any" " "],
          .leaf .RPAR ")" ""] ::
        editRtn (.leaf .NAME v " ")
          (if (v == "__init__" || !has_return_exprs (mkAnnFd v)) = true
           then "None" else "Any")
          [.leaf .COLON ":" "", suiteRet (.leaf .NUMBER "1" " ")]),
       []) := rfl
  cases hv : pyStarts v "__" with
  | true =>
    rw [hstep]
    simp only [editRtn, leafValue, leafVal, Option.getD, hv]
    rfl
  | false =>
    have hbi : (v == "__init__") = false := by
      cases hbe : v == "__init__" with
      | false => rfl
      | true =>
        have hveq : v = "__init__" := eq_of_beq hbe
        rw [hveq] at hv
        exact absurd hv (by decide)
    rw [hstep]
    simp only [editRtn, leafValue, leafVal, Option.getD, hv, hbi]
    rfl

/-- Claim C5: `make_annotation` computes return type `None` exactly
when the function name is `__init__` or `has_return_exprs` finds no
value-returning return, and `Any` otherwise; the search does not count
a bare `return` (`fdC5bare`), does not descend into a nested function
definition (`fdC5nested`), and does find a direct `return 42`
(`fdC5value`); a function named `__init__` gets `None` even though its
body returns a value. -/
theorem C5_return_heuristic (parent : Option PyTree) (anc : List NodeTy)
    (th : Bool) (nd nm : PyTree) (oargs : Option PyTree) :
    ((mkAnnot parent anc th nd nm oargs).restype = "None" ↔
      (leafValue nm = "__init__" ∨ has_return_exprs nd = false)) ∧
    has_return_exprs fdC5bare = false ∧
    has_return_exprs fdC5nested = false ∧
    has_return_exprs fdC5value = true ∧
    (mkAnnot none [.suite, .classdef] false fdC5value
        (.leaf .NAME "__init__" " ") none).restype = "None" := by
  refine ⟨?_, rfl, rfl, rfl, rfl⟩
  by_cases h1 : leafValue nm = "__init__"
  · simp [mkAnnot, h1]
  · have hb : (leafValue nm == "__init__") = false := beq_eq_false_iff_ne.mpr h1
    by_cases h2 : has_return_exprs nd = true
    · simp [mkAnnot, hb, h1, h2]
    · have h2f : has_return_exprs nd = false := by simpa using h2
      simp [mkAnnot, hb, h1, h2f]

/-- Claim C7: the comment-style insertion computes the compact
rendering `(T1, ..., Tn) -> TR` and the collapsed rendering
`(...) -> TR`, chooses the long form exactly when the compact one is
over 64 characters or has more than 5 entries while also being
strictly longer than the collapsed one, and splices
`# type: <chosen>` into the INDENT prefix; with six `Any` entries the
long form wins, while a 69-character compact rendering whose collapsed
form is just as long stays compact, as does a short one. -/
theorem C7_width_policy (fn : String) (ln : Nat) (c0 : PyTree) (v p : String)
    (rest : List PyTree) (an : Annot) :
    (insertPy2Annot fn ln (c0 :: .leaf .INDENT v p :: rest) an =
      (c0 :: .leaf .INDENT v
        (v ++ "# type: " ++
          (if (("(" ++ joinSep ", " an.argtypes ++ ") -> " ++ an.restype).length > 64
                || an.argtypes.length > 5)
              && (("(" ++ joinSep ", " an.argtypes ++ ") -> " ++ an.restype).length
                  > ("(...) -> " ++ an.restype).length)
           then "(...) -> " ++ an.restype
           else "(" ++ joinSep ", " an.argtypes ++ ") -> " ++ an.restype)
          ++ "\n" ++ p) :: rest,
        [],
        (("(" ++ joinSep ", " an.argtypes ++ ") -> " ++ an.restype).length > 64
            || an.argtypes.length > 5)
          && (("(" ++ joinSep ", " an.argtypes ++ ") -> " ++ an.restype).length
              > ("(...) -> " ++ an.restype).length))) ∧
    (insertPy2Annot "f.py" 1 py2C7kids
      ⟨["Any", "Any", "Any", "Any", "Any", "Any"], "Any", false⟩).2.2 = true ∧
    (insertPy2Annot "f.py" 1 py2C7kids ⟨["Any"], longC7, false⟩).2.2 = false ∧
    (insertPy2Annot "f.py" 1 py2C7kids ⟨["Any"], "Any", false⟩).2.2 = false := by
  refine ⟨rfl, by decide, by decide, by decide⟩

/-- Claim C8: `get_decorators` on `@wrapped("func")` returns
`["wrapped"]` — the parameterized decorator does contribute its outer
name, contradicting the docstring and the claim — while plain
decorators, single or stacked, contribute their names in order. -/
theorem C8_decorator_eval :
    get_decorators (some (.node .decorated [decoC8wrapped, fdC8])) = ["wrapped"] ∧
    get_decorators (some (.node .decorated [decoC8static, fdC8])) = ["staticmethod"] ∧
    get_decorators (some (.node .decorated
      [.node .decorators [decoC8cm, decoC8wrapped], fdC8]))
      = ["classmethod", "wrapped"] :=
  ⟨rfl, rfl, rfl⟩

/-- Claim C9: `revert_annotations` yields one record per input record
that preserves path, line, func_name and samples and whose
type_comments is exactly the one-element list holding
`( <arg_types joined by comma-space> ) -> <return_type>`. -/
theorem C9_revert (data : List FunctionData) (i : Nat) (h : i < data.length) :
    (revert_annotations data).length = data.length ∧
    (revert_annotations data)[i]? =
      some { path := (data.get ⟨i, h⟩).path,
             line := (data.get ⟨i, h⟩).line,
             func_name := (data.get ⟨i, h⟩).func_name,
             type_comments :=
               ["(" ++ joinSep ", " (data.get ⟨i, h⟩).signature.arg_types
                 ++ ") -> " ++ (data.get ⟨i, h⟩).signature.return_type],
             samples := (data.get ⟨i, h⟩).samples } := by
  constructor
  · simp [revert_annotations]
  · have h2 : data[i]? = some (data.get ⟨i, h⟩) := by
      simp [List.getElem?_eq_getElem h]
    simp [revert_annotations, List.getElem?_map, h2]

/-- Witness for C9 at a concrete one-record list. -/
theorem C9_revert_witness :
    (revert_annotations dataC9).length = dataC9.length ∧
    (revert_annotations dataC9)[0]? =
      some { path := (dataC9.get ⟨0, by decide⟩).path,
             line := (dataC9.get ⟨0, by decide⟩).line,
             func_name := (dataC9.get ⟨0, by decide⟩).func_name,
             type_comments :=
               ["(" ++ joinSep ", " (dataC9.get ⟨0, by decide⟩).signature.arg_types
                 ++ ") -> " ++ (dataC9.get ⟨0, by decide⟩).signature.return_type],
             samples := (dataC9.get ⟨0, by decide⟩).samples } :=
  ⟨(C9_revert dataC9 0 (by decide)).1, (C9_revert dataC9 0 (by decide)).2⟩

end PyAnn
